import Mathlib

/-!
Verification of the retail labour-demand pipeline
(`experiments/retail_labour_demand`): a shallow embedding of the
feature-engineering, train/test splitting, labour-hours conversion,
productivity-calibration and sensitivity stages, together with theorems
settling the spec's claims about them.

Numeric values that the Python code holds as floats are modelled as
rationals (`ℚ`); a pandas `NaN`/missing cell is modelled as `none` in
`Option ℚ`.  Each definition carries a comment naming the source lines it
embeds.
-/

namespace RetailLabour

/-! ## Labour-hours conversion (`04_labor_conversion.py`) -/

/-- `hours_from_sales(sales, splh) = sales / splh`
(`04_labor_conversion.py` lines 30–49).  The Python body is a bare
division; in the pipeline `splh` is a positive per-store constant, so the
zero-divisor case never arises there.  The behaviour of the pandas
division for an arbitrary divisor (including zero) is modelled separately
by `hoursFromSalesPy`. -/
def hoursFromSales (sales splh : ℚ) : ℚ := sales / splh

/-- `hours_from_items(items, iplh) = items / iplh`
(`04_labor_conversion.py` lines 52–71). -/
def hoursFromItems (items iplh : ℚ) : ℚ := items / iplh

/-- One output row of the actual/forecast hours conversion:
`hours_variable`, `hours_baseline`, `hours_total`. -/
structure HoursRow where
  hoursVariable : ℚ
  hoursBaseline : ℚ
  hoursTotal : ℚ
  deriving DecidableEq, Repr

/-- The actual-demand conversion of `04_labor_conversion.py`
lines 115–131 (SPLH mode): `hours_variable = hours_from_sales(sales, splh)`,
`hours_baseline = BASELINE_HOURS`, `hours_total = hours_variable +
hours_baseline`. -/
def actualHoursRow (sales splh baseline : ℚ) : HoursRow :=
  { hoursVariable := hoursFromSales sales splh
    hoursBaseline := baseline
    hoursTotal := hoursFromSales sales splh + baseline }

/-- Pandas-faithful view of the `sales / splh` division used by
`hours_from_sales`: dividing a pandas Series never raises an exception;
a zero divisor yields a non-finite float, modelled here as `none`, and
any nonzero divisor (positive or negative) yields the quotient.
No validation of the sign of `splh` exists anywhere in the source. -/
def hoursFromSalesPy (sales splh : ℚ) : Option ℚ :=
  if splh = 0 then none else some (sales / splh)

/-- Modelled from the spec: the spec's words for the hours conversion,
"`variable_hours = demand / ratio`. Fails with `ConfigError` if
`ratio <= 0`."  No `ConfigError` (or any ratio check) exists in the
repository; this definition follows the spec's words so it can be
compared with the source's `hoursFromSalesPy`. -/
def hoursFromSalesSpec (sales ratio : ℚ) : Except Unit ℚ :=
  if ratio ≤ 0 then Except.error () else Except.ok (sales / ratio)

/-! ## Forecast-hours path and `delta_hours` (`04_labor_conversion.py`) -/

/-- `avg_sales_per_unit = df['total_sales'].sum() / df['total_units'].sum()`
(`04_labor_conversion.py` line 189): rows are `(total_sales, total_units)`
pairs. -/
def avgSalesPerUnit (rows : List (ℚ × ℚ)) : ℚ :=
  (rows.map Prod.fst).sum / (rows.map Prod.snd).sum

/-- Actual `hours_total` in SPLH mode (`04_labor_conversion.py`
lines 120, 130–131): sales divided by the store's SPLH, plus baseline. -/
def hoursActualSplh (sales splh baseline : ℚ) : ℚ :=
  hoursFromSales sales splh + baseline

/-- Forecast `hours_total` in SPLH mode (`04_labor_conversion.py`
lines 185–209): the unit forecast `y_pred` is first scaled by the
dataset-global `avg_sales_per_unit` proxy, then divided by the same SPLH
and given the same baseline. -/
def hoursForecastSplh (yPred avg splh baseline : ℚ) : ℚ :=
  hoursFromSales (yPred * avg) splh + baseline

/-- `delta_hours = hours_forecast - hours_actual`
(`04_labor_conversion.py` line 248). -/
def deltaHoursSplh (sales yPred avg splh baseline : ℚ) : ℚ :=
  hoursForecastSplh yPred avg splh baseline - hoursActualSplh sales splh baseline

/-- `delta_hours` in IPLH mode (`04_labor_conversion.py` lines 122–127
and 197–205): both sides convert a unit count with the same per-store
IPLH and baseline. -/
def deltaHoursIplh (units yPred iplh baseline : ℚ) : ℚ :=
  (hoursFromItems yPred iplh + baseline) - (hoursFromItems units iplh + baseline)

/-! ## Sensitivity sweep (`06_diagnostics.py` lines 244–270) -/

/-- Per-row hours in one sensitivity scenario:
`hours = demand / param_value` then `hours_with_baseline = hours +
BASELINE_HOURS` (`06_diagnostics.py` lines 257–261). -/
def scenarioHours (demand : List ℚ) (ratio baseline : ℚ) : List ℚ :=
  demand.map fun d => d / ratio + baseline

/-- `total_hours = hours_with_baseline.sum()` for one swept ratio
(`06_diagnostics.py` line 267). -/
def scenarioTotalHours (demand : List ℚ) (ratio baseline : ℚ) : ℚ :=
  (scenarioHours demand ratio baseline).sum

lemma scenarioTotalHours_eq (demand : List ℚ) (ratio baseline : ℚ) :
    scenarioTotalHours demand ratio baseline =
      demand.sum / ratio + demand.length * baseline := by
  induction demand with
  | nil => simp [scenarioTotalHours, scenarioHours]
  | cons d ds ih =>
      simp only [scenarioTotalHours, scenarioHours, List.map_cons, List.sum_cons,
        List.length_cons] at ih ⊢
      rw [ih, add_div]
      push_cast
      ring

/-! ## Feature engineering (`02_feature_engineering.py`)

A per-entity demand series, already sorted by date as both variants do
(`sort_values(['Store', 'Date'])`), is a `List ℚ`; position `i` is the
entity's `i`-th date.  A feature cell is `Option ℚ`, `none` being
pandas `NaN`. -/

/-- Lag feature `group[col].shift(lag)` at row `i`
(`02_feature_engineering.py` lines 174–183; identically
`src/02_feature_engineering.py` line 182): `NaN` for the first `k` rows
of the entity, the demand `k` rows earlier otherwise. -/
def lagFeature (k : ℕ) (s : List ℚ) (i : ℕ) : Option ℚ :=
  if i < k then none else s.get? (i - k)

/-- Rolling-mean feature at row `i`: both variants compute the mean of
the demand at rows `max(0, i−w) … i−1`, and `NaN` at row 0.
Top-level variant (`02_feature_engineering.py` lines 193–208):
`rolling(window=w, min_periods=1).mean().shift(1)`; at row `i ≥ 1` the
shifted value is the row-`(i−1)` rolling mean over rows
`max(0, i−w) … i−1`.  The `src/` variant
(`src/02_feature_engineering.py` lines 198–216) computes
`shift(1).rolling(window=w, min_periods=1).mean()`, whose window at row
`i` holds the shifted values of rows `max(0, i−w+1) … i`, i.e. the same
demands, the leading `NaN` being skipped by pandas with
`min_periods=1`. -/
def rollingMean (w : ℕ) (s : List ℚ) (i : ℕ) : Option ℚ :=
  if i = 0 then none
  else
    let window := (s.take i).drop (i - w)
    if window.length = 0 then none else some (window.sum / window.length)

/-- The whole lag column over a series, one cell per row
(`group[f'sales_lag_{lag}']`). -/
def lagColumn (k : ℕ) (s : List ℚ) : List (Option ℚ) :=
  (List.range s.length).map fun i => lagFeature k s i

/-- `fillna(method='ffill')` on one entity's column
(`src/02_feature_engineering.py` line 322): each `NaN` cell takes the
last preceding non-`NaN` value, if any.  `last` carries that value. -/
def ffillFrom (last : Option ℚ) : List (Option ℚ) → List (Option ℚ)
  | [] => []
  | some v :: xs => some v :: ffillFrom (some v) xs
  | none :: xs => last :: ffillFrom last xs

/-- The `src/` variant's missing-value step for lag/rolling columns
(`src/02_feature_engineering.py` lines 315–322):
`groupby('Store')[col].fillna(method='ffill').fillna(0)` — forward fill
inside the entity, then replace the remaining `NaN`s with 0. -/
def srcFillLagRolling (col : List (Option ℚ)) : List ℚ :=
  (ffillFrom none col).map fun o => o.getD 0

lemma ffillFrom_get_none (col : List (Option ℚ)) (i : ℕ)
    (h : ∀ j, j ≤ i → col.get? j = some none) :
    (ffillFrom none col).get? i = some none := by
  induction col generalizing i with
  | nil => simpa using h 0 (Nat.zero_le i)
  | cons x xs ih =>
      have hx : x = none := by
        have := h 0 (Nat.zero_le i)
        simpa using this
      subst hx
      cases i with
      | zero => simp [ffillFrom]
      | succ n =>
          simp only [ffillFrom, List.get?_cons_succ]
          exact ih n fun j hj => by
            have := h (j + 1) (Nat.succ_le_succ hj)
            simpa using this

/-! ## Time-based train/test split (`03_forecasting.py` lines 68–91)

A row is a `(store, date)` pair with dates as natural numbers (dates are
totally ordered; nothing else about them is used). -/

/-- `unique_dates = sorted(df['Date'].unique())`
(`03_forecasting.py` line 71): the distinct dates in ascending order
(any stable sort produces this list; insertion sort is used so the
definition evaluates inside the kernel). -/
def uniqueDates (rows : List (ℕ × ℕ)) : List ℕ :=
  ((rows.map Prod.snd).dedup).insertionSort (· ≤ ·)

/-- `train_dates = unique_dates[:-n_test]` (`03_forecasting.py`
line 77). -/
def trainDates (n : ℕ) (rows : List (ℕ × ℕ)) : List ℕ :=
  (uniqueDates rows).take ((uniqueDates rows).length - n)

/-- `test_dates = unique_dates[-n_test:]` (`03_forecasting.py`
line 76). -/
def testDates (n : ℕ) (rows : List (ℕ × ℕ)) : List ℕ :=
  (uniqueDates rows).drop ((uniqueDates rows).length - n)

/-- `train_df = df[df['Date'].isin(train_dates)]` (`03_forecasting.py`
line 80). -/
def trainSet (n : ℕ) (rows : List (ℕ × ℕ)) : List (ℕ × ℕ) :=
  rows.filter fun r => decide (r.2 ∈ trainDates n rows)

/-- `test_df = df[df['Date'].isin(test_dates)]` (`03_forecasting.py`
line 81). -/
def testSet (n : ℕ) (rows : List (ℕ × ℕ)) : List (ℕ × ℕ) :=
  rows.filter fun r => decide (r.2 ∈ testDates n rows)

/-- The split's cutoff: the first test date, `test_dates[0]`
(equivalently `test_cutoff_date = unique_dates[len(unique_dates) -
TEST_WEEKS]` of `src/03_model_training.py` lines 72–73). -/
def cutoffDate (n : ℕ) (rows : List (ℕ × ℕ)) : ℕ :=
  (testDates n rows).headD 0

lemma uniqueDates_sorted (rows : List (ℕ × ℕ)) :
    (uniqueDates rows).Sorted (· < ·) := by
  have hle : (uniqueDates rows).Sorted (· ≤ ·) :=
    List.sorted_insertionSort (· ≤ ·) ((rows.map Prod.snd).dedup)
  have hnd : (uniqueDates rows).Nodup :=
    (List.perm_insertionSort _ _).nodup_iff.mpr (List.nodup_dedup _)
  exact hle.lt_of_le hnd

lemma mem_uniqueDates (rows : List (ℕ × ℕ)) (d : ℕ) :
    d ∈ uniqueDates rows ↔ d ∈ rows.map Prod.snd := by
  unfold uniqueDates
  rw [(List.perm_insertionSort _ _).mem_iff, List.mem_dedup]

lemma lt_getElem_of_mem_take {l : List ℕ} (hs : l.Sorted (· < ·))
    {p : ℕ} (hp : p < l.length) {a : ℕ} (ha : a ∈ l.take p) : a < l[p] := by
  rw [List.mem_iff_getElem] at ha
  obtain ⟨i, hi, rfl⟩ := ha
  have hilen : i < l.length := lt_of_lt_of_le hi (by simp)
  have hip : i < p := by
    have := hi
    simp only [List.length_take, lt_min_iff] at this
    exact this.1
  rw [List.getElem_take]
  exact List.pairwise_iff_getElem.mp hs i p hilen hp hip

lemma getElem_le_of_mem_drop {l : List ℕ} (hs : l.Sorted (· < ·))
    {p : ℕ} (hp : p < l.length) {a : ℕ} (ha : a ∈ l.drop p) : l[p] ≤ a := by
  rw [List.mem_iff_getElem] at ha
  obtain ⟨i, hi, rfl⟩ := ha
  have hplen : p + i < l.length := by
    have := hi
    simp only [List.length_drop] at this
    omega
  rw [List.getElem_drop]
  rcases Nat.eq_zero_or_pos i with h0 | h0
  · subst h0; simp
  · exact le_of_lt (List.pairwise_iff_getElem.mp hs p (p + i) hp hplen (by omega))

/-! ## Productivity calibration (`src/05_productivity_calibration.py`) -/

/-- Rebasing a series value to an index with base 100:
`Productivity_Index = Implied_Productivity_Real / baseline * 100`
(`src/05_productivity_calibration.py` lines 196–200) and
`BLS_Index_Normalized = BLS_Index / bls_baseline_value * 100`
(lines 222–225). -/
def indexTo100 (x base : ℚ) : ℚ := x / base * 100

/-- `Deviation_Pct = (Productivity_Index / BLS_Index_Normalized - 1) * 100`
(`src/05_productivity_calibration.py` lines 234–236). -/
def deviationPct (implied benchmark : ℚ) : ℚ := (implied / benchmark - 1) * 100

/-- `deviation_threshold = 10.0` (percent)
(`src/05_productivity_calibration.py` line 251). -/
def deviationThreshold : ℚ := 10

/-- A period is flagged when
`abs(Deviation_Pct) > deviation_threshold`
(`src/05_productivity_calibration.py` lines 253–255). -/
def flaggedPeriod (implied benchmark : ℚ) : Bool :=
  decide (|deviationPct implied benchmark| > deviationThreshold)

/-! ## MAPE (`03_forecasting.py` lines 130–137)

`sklearn.metrics.mean_absolute_percentage_error(y_true, y_pred)` is the
mean over all rows of `|y_true - y_pred| / max(|y_true|, eps)` with
`eps = np.finfo(np.float64).eps = 2⁻⁵²`; no row is excluded. -/

/-- `np.finfo(np.float64).eps`, the denominator clamp used by sklearn's
MAPE. -/
def epsFloat64 : ℚ := 1 / 2 ^ 52

/-- One row's contribution to sklearn's MAPE: rows are
`(y_true, y_pred)` pairs. -/
def mapeTerm (p : ℚ × ℚ) : ℚ := |p.1 - p.2| / max |p.1| epsFloat64

/-- `mean_absolute_percentage_error(y_true, y_pred)` as called on the
test rows in `03_forecasting.py` lines 132, 160, 178, 266: the mean of
`mapeTerm` over all rows. -/
def mapeSklearn (pairs : List (ℚ × ℚ)) : ℚ :=
  (pairs.map mapeTerm).sum / pairs.length

/-- Modelled from the spec: the spec's MAPE, in which "rows whose actual
demand is exactly zero are excluded from MAPE"; no such exclusion exists
in the repository (neither in `03_forecasting.py` nor in
`06_diagnostics.py`), so this definition follows the spec's words for
comparison with `mapeSklearn`. -/
def mapeExcludingZeros (pairs : List (ℚ × ℚ)) : ℚ :=
  let nz := pairs.filter fun p => decide (p.1 ≠ 0)
  (nz.map fun p => |p.1 - p.2| / |p.1|).sum / nz.length

/-- Modelled from the spec: the count of zero-actual rows that the spec
says is "reported separately"; the repository reports no such count. -/
def zeroActualCount (pairs : List (ℚ × ℚ)) : ℕ :=
  (pairs.filter fun p => decide (p.1 = 0)).length

end RetailLabour

namespace RetailLabour

/-! ## Claim theorems: feature engineering -/

/-- C1: no leakage: for every lag `k ≥ 1`, window `w` and row `i`, both
`lag_k` and `rolling_mean_w` at row `i` are unchanged when the series is
truncated to the rows strictly before `i` — they depend only on
same-entity records with earlier dates. -/
theorem no_leakage (k w i : ℕ) (s : List ℚ) (hk : 1 ≤ k) :
    lagFeature k s i = lagFeature k (s.take i) i ∧
    rollingMean w s i = rollingMean w (s.take i) i := by
  constructor
  · unfold lagFeature
    by_cases h : i < k
    · simp [h]
    · have hik : k ≤ i := le_of_not_lt h
      have hlt : i - k < i := Nat.sub_lt (lt_of_lt_of_le hk hik) hk
      simp only [h, if_false, List.get?_eq_getElem?]
      exact (List.getElem?_take_of_lt hlt).symm
  · unfold rollingMean
    by_cases h : i = 0
    · simp [h]
    · simp only [h, if_false]
      rw [List.take_take, min_self]

/-- Witness for C1 at `k = 1`, `w = 2`, `i = 2`, series `[3, 5, 7]`:
truncating away the current and later rows leaves both features at row 2
unchanged. -/
theorem no_leakage_witness :
    lagFeature 1 [3, 5, 7] 2 = lagFeature 1 ([3, 5, 7].take 2) 2 ∧
    rollingMean 2 [3, 5, 7] 2 = rollingMean 2 ([3, 5, 7].take 2) 2 :=
  no_leakage 1 2 2 [3, 5, 7] (by norm_num)

/-- C6 counterexample: for the two-period series `[5, 6]` the `src/`
feature-engineering stage itself outputs `0`, not null, as the first
period's `lag_1` value: `fillna(ffill).fillna(0)` runs inside
`src/02_feature_engineering.py`, contradicting the claim that the stage
never zero-fills a missing lag. -/
theorem lag_zero_fill_counterexample :
    (srcFillLagRolling (lagColumn 1 [5, 6])).get? 0 = some 0 ∧
    (lagColumn 1 [5, 6]).get? 0 = some none := by
  constructor <;> rfl

/-- C6 amended: the raw lag column is null (not zero) for the first `k`
periods of an entity's series in both variants, and the top-level
pipeline's feature stage keeps it null (zero-filling happens downstream,
in `03_forecasting.py`); but the `src/` variant's feature stage
forward-fills then zero-fills, so its output holds `0` at those rows. -/
theorem lag_null_first_periods (k i : ℕ) (s : List ℚ)
    (hk : 1 ≤ k) (hik : i < k) (hi : i < s.length) :
    (lagColumn k s).get? i = some none ∧
    (srcFillLagRolling (lagColumn k s)).get? i = some 0 := by
  have hcol : ∀ j, j ≤ i → (lagColumn k s).get? j = some none := by
    intro j hj
    have hjlen : j < s.length := lt_of_le_of_lt hj hi
    have hjk : j < k := lt_of_le_of_lt hj hik
    unfold lagColumn
    rw [List.get?_map, List.get?_range hjlen]
    simp [lagFeature, hjk]
  have hnone : (ffillFrom none (lagColumn k s)).get? i = some none :=
    ffillFrom_get_none _ i hcol
  refine ⟨hcol i le_rfl, ?_⟩
  unfold srcFillLagRolling
  rw [List.get?_map, hnone]
  rfl

/-- Witness for C6 amended at `k = 1`, `i = 0`, series `[5, 6]`. -/
theorem lag_null_first_periods_witness :
    (lagColumn 1 [5, 6]).get? 0 = some none ∧
    (srcFillLagRolling (lagColumn 1 [5, 6])).get? 0 = some 0 :=
  lag_null_first_periods 1 0 [5, 6] (by norm_num) (by norm_num) (by norm_num)

/-! ## Claim theorems: train/test split (C4) -/

/-- C4: for any rows and valid `holdout_periods` `n` (at least 1 and
fewer than the number of distinct dates), the date-based split is an
exhaustive disjoint partition: a row is in train iff its date is before
the cutoff (the first test date) and in test iff its date is at or after
it; every row lands in exactly one side, both sides only hold input
rows, and every train date is below the cutoff while every test date is
at or above it. -/
theorem split_partition (rows : List (ℕ × ℕ)) (n : ℕ)
    (h1 : 1 ≤ n) (h2 : n < (uniqueDates rows).length) :
    (∀ r ∈ rows, (r.2 < cutoffDate n rows ↔ r ∈ trainSet n rows)) ∧
    (∀ r ∈ rows, (cutoffDate n rows ≤ r.2 ↔ r ∈ testSet n rows)) ∧
    (∀ r ∈ rows, r ∈ trainSet n rows ∨ r ∈ testSet n rows) ∧
    (∀ r ∈ trainSet n rows, r ∈ rows) ∧
    (∀ r ∈ testSet n rows, r ∈ rows) ∧
    (∀ r ∈ trainSet n rows, r ∉ testSet n rows) ∧
    (∀ r ∈ trainSet n rows, r.2 < cutoffDate n rows) ∧
    (∀ r ∈ testSet n rows, cutoffDate n rows ≤ r.2) := by
  set US := uniqueDates rows with hUS
  set p := US.length - n with hpdef
  have hp : p < US.length := by omega
  have hs : US.Sorted (· < ·) := uniqueDates_sorted rows
  have hcut : cutoffDate n rows = US[p] := by
    unfold cutoffDate testDates
    rw [← hUS, ← hpdef, List.drop_eq_getElem_cons hp]
    rfl
  have htrain : ∀ r : ℕ × ℕ,
      r ∈ trainSet n rows ↔ r ∈ rows ∧ r.2 ∈ US.take p := by
    intro r
    unfold trainSet trainDates
    rw [List.mem_filter, decide_eq_true_iff, ← hUS, ← hpdef]
  have htest : ∀ r : ℕ × ℕ,
      r ∈ testSet n rows ↔ r ∈ rows ∧ r.2 ∈ US.drop p := by
    intro r
    unfold testSet testDates
    rw [List.mem_filter, decide_eq_true_iff, ← hUS, ← hpdef]
  have hmemUS : ∀ r ∈ rows, r.2 ∈ US := by
    intro r hr
    rw [hUS, mem_uniqueDates]
    exact List.mem_map_of_mem Prod.snd hr
  have htake_lt : ∀ a ∈ US.take p, a < US[p] := fun a ha =>
    lt_getElem_of_mem_take hs hp ha
  have hdrop_le : ∀ a ∈ US.drop p, US[p] ≤ a := fun a ha =>
    getElem_le_of_mem_drop hs hp ha
  have hsplitmem : ∀ r ∈ rows, r.2 ∈ US.take p ∨ r.2 ∈ US.drop p := by
    intro r hr
    have := hmemUS r hr
    rw [← List.take_append_drop p US, List.mem_append] at this
    exact this
  have htrain_lt : ∀ r ∈ trainSet n rows, r.2 < cutoffDate n rows := by
    intro r hr
    rw [hcut]
    exact htake_lt _ ((htrain r).mp hr).2
  have htest_le : ∀ r ∈ testSet n rows, cutoffDate n rows ≤ r.2 := by
    intro r hr
    rw [hcut]
    exact hdrop_le _ ((htest r).mp hr).2
  refine ⟨?_, ?_, ?_, ?_, ?_, ?_, htrain_lt, htest_le⟩
  · intro r hr
    constructor
    · intro hlt
      rcases hsplitmem r hr with h | h
      · exact (htrain r).mpr ⟨hr, h⟩
      · exact absurd (hdrop_le _ h) (by rw [hcut] at hlt; omega)
    · exact fun h => htrain_lt r h
  · intro r hr
    constructor
    · intro hle
      rcases hsplitmem r hr with h | h
      · exact absurd (htake_lt _ h) (by rw [hcut] at hle; omega)
      · exact (htest r).mpr ⟨hr, h⟩
    · exact fun h => htest_le r h
  · intro r hr
    rcases hsplitmem r hr with h | h
    · exact Or.inl ((htrain r).mpr ⟨hr, h⟩)
    · exact Or.inr ((htest r).mpr ⟨hr, h⟩)
  · exact fun r hr => ((htrain r).mp hr).1
  · exact fun r hr => ((htest r).mp hr).1
  · intro r hr hr'
    have := htrain_lt r hr
    have := htest_le r hr'
    omega

/-- Witness for C4: four rows over three distinct dates, `n = 1`; the
cutoff is 30, train holds the dates 10 and 20, test the date 30. -/
theorem split_partition_witness :
    (∀ r ∈ [(1, 10), (1, 20), (2, 10), (2, 30)],
        (r.2 < cutoffDate 1 [(1, 10), (1, 20), (2, 10), (2, 30)] ↔
          r ∈ trainSet 1 [(1, 10), (1, 20), (2, 10), (2, 30)])) ∧
    (∀ r ∈ [(1, 10), (1, 20), (2, 10), (2, 30)],
        (cutoffDate 1 [(1, 10), (1, 20), (2, 10), (2, 30)] ≤ r.2 ↔
          r ∈ testSet 1 [(1, 10), (1, 20), (2, 10), (2, 30)])) ∧
    (∀ r ∈ [(1, 10), (1, 20), (2, 10), (2, 30)],
        r ∈ trainSet 1 [(1, 10), (1, 20), (2, 10), (2, 30)] ∨
          r ∈ testSet 1 [(1, 10), (1, 20), (2, 10), (2, 30)]) ∧
    (∀ r ∈ trainSet 1 [(1, 10), (1, 20), (2, 10), (2, 30)],
        r ∈ [(1, 10), (1, 20), (2, 10), (2, 30)]) ∧
    (∀ r ∈ testSet 1 [(1, 10), (1, 20), (2, 10), (2, 30)],
        r ∈ [(1, 10), (1, 20), (2, 10), (2, 30)]) ∧
    (∀ r ∈ trainSet 1 [(1, 10), (1, 20), (2, 10), (2, 30)],
        r ∉ testSet 1 [(1, 10), (1, 20), (2, 10), (2, 30)]) ∧
    (∀ r ∈ trainSet 1 [(1, 10), (1, 20), (2, 10), (2, 30)],
        r.2 < cutoffDate 1 [(1, 10), (1, 20), (2, 10), (2, 30)]) ∧
    (∀ r ∈ testSet 1 [(1, 10), (1, 20), (2, 10), (2, 30)],
        cutoffDate 1 [(1, 10), (1, 20), (2, 10), (2, 30)] ≤ r.2) :=
  split_partition [(1, 10), (1, 20), (2, 10), (2, 30)] 1
    (by norm_num) (by decide)

/-! ## Claim theorems: hours conversion -/

/-- C3: the hours conversion returns `variable_hours = demand / ratio` and
`total_hours = demand / ratio + baseline_hours`; at demand 130, ratio 10
and baseline 8 the total is 21. -/
theorem hours_conversion_formula :
    (∀ d r b : ℚ, (actualHoursRow d r b).hoursVariable = d / r ∧
       (actualHoursRow d r b).hoursTotal = d / r + b) ∧
    (actualHoursRow 130 10 8).hoursTotal = 21 := by
  refine ⟨fun d r b => ⟨rfl, rfl⟩, ?_⟩
  norm_num [actualHoursRow, hoursFromSales]

/-- C10: negative demand is preserved, never clamped: for demand `d < 0`
and ratio `r > 0` the conversion returns `variable_hours = d / r < 0`
and `total_hours` strictly below the baseline hours. -/
theorem negative_demand_preserved (d r b : ℚ) (hd : d < 0) (hr : 0 < r) :
    (actualHoursRow d r b).hoursVariable = d / r ∧
    (actualHoursRow d r b).hoursVariable < 0 ∧
    (actualHoursRow d r b).hoursTotal < b := by
  have hneg : d / r < 0 := div_neg_of_neg_of_pos hd hr
  refine ⟨rfl, hneg, ?_⟩
  have : (actualHoursRow d r b).hoursTotal = d / r + b := rfl
  rw [this]
  linarith

/-- Witness for C10 at demand −10, ratio 2, baseline 8: variable hours
−5 < 0 and total hours 3 < 8. -/
theorem negative_demand_preserved_witness :
    (actualHoursRow (-10) 2 8).hoursVariable = (-10 : ℚ) / 2 ∧
    (actualHoursRow (-10) 2 8).hoursVariable < 0 ∧
    (actualHoursRow (-10) 2 8).hoursTotal < 8 :=
  negative_demand_preserved (-10) 2 8 (by norm_num) (by norm_num)

/-- C9 counterexample: at ratio −5 ≤ 0 the conversion succeeds and
returns −26 (no `ConfigError` is raised anywhere in the source), while
the spec's words mandate failure there. -/
theorem ratio_check_counterexample :
    hoursFromSalesPy 130 (-5) = some (-26) ∧
    hoursFromSalesSpec 130 (-5) = Except.error () := by
  constructor
  · norm_num [hoursFromSalesPy]
  · norm_num [hoursFromSalesSpec]

/-- C9 amended: the conversion performs no ratio validation: it succeeds
exactly when the ratio is nonzero (negative ratios included), returning
`demand / ratio`; a zero ratio yields a non-finite float value, not an
error. -/
theorem ratio_no_validation (sales splh : ℚ) :
    ((hoursFromSalesPy sales splh).isSome = true ↔ splh ≠ 0) ∧
    (splh ≠ 0 → hoursFromSalesPy sales splh = some (sales / splh)) := by
  constructor
  · by_cases h : splh = 0 <;> simp [hoursFromSalesPy, h]
  · intro h
    simp [hoursFromSalesPy, h]

/-- Witness for C9 amended at sales 130, ratio 200 (the configured type-A
SPLH): the conversion succeeds with value 13/20. -/
theorem ratio_no_validation_witness :
    ((hoursFromSalesPy 130 200).isSome = true ↔ (200 : ℚ) ≠ 0) ∧
    ((200 : ℚ) ≠ 0 → hoursFromSalesPy 130 200 = some (130 / 200)) :=
  ratio_no_validation 130 200

/-! ## Claim theorems: forecast vs actual conversion (C2) -/

/-- C2 counterexample: with rows `(sales, units) = (100, 2)` and
`(20, 2)` the global `avg_sales_per_unit` is 30; on the first row the
forecast `y_pred = 2` equals the actual units, yet with SPLH 10 and
baseline 8 `delta_hours = −4 ≠ 0`: the forecast path converts
`y_pred · avg_sales_per_unit` while the actual path converts the row's
own sales. -/
theorem delta_hours_counterexample :
    deltaHoursSplh 100 2 (avgSalesPerUnit [(100, 2), (20, 2)]) 10 8 = -4 ∧
    deltaHoursSplh 100 2 (avgSalesPerUnit [(100, 2), (20, 2)]) 10 8 ≠ 0 := by
  constructor <;>
    norm_num [deltaHoursSplh, avgSalesPerUnit, hoursForecastSplh, hoursActualSplh,
      hoursFromSales]

/-- C2 amended: in the configured SPLH mode the two conversions are
different functions of the row: `delta_hours =
(y_pred · avg_sales_per_unit − sales) / splh`, which vanishes only when
the row's actual sales equal the forecast units scaled by the global
average sales-per-unit; in IPLH mode both sides do apply the same
function, so equal unit forecasts give `delta_hours = 0`. -/
theorem delta_hours_characterisation :
    (∀ sales yPred avg splh b : ℚ,
        deltaHoursSplh sales yPred avg splh b = (yPred * avg - sales) / splh) ∧
    (∀ units iplh b : ℚ, deltaHoursIplh units units iplh b = 0) := by
  constructor
  · intro sales yPred avg splh b
    simp only [deltaHoursSplh, hoursForecastSplh, hoursActualSplh, hoursFromSales]
    rw [sub_div]
    ring
  · intro units iplh b
    simp [deltaHoursIplh]

/-! ## Claim theorems: sensitivity sweep (C7) -/

/-- C7 counterexample: for the demand series `[5, −5]` (admissible, since
negative demand is preserved by the pipeline) and baseline 8, the swept
ratios 1 < 2 give identical total hours (16 each), so the total is not a
strictly decreasing function of the ratio for every demand series. -/
theorem sensitivity_counterexample :
    scenarioTotalHours [5, -5] 1 8 = scenarioTotalHours [5, -5] 2 8 ∧
    ¬ scenarioTotalHours [5, -5] 1 8 > scenarioTotalHours [5, -5] 2 8 := by
  constructor <;>
    norm_num [scenarioTotalHours, scenarioHours]

/-- C7 amended: for a fixed demand series with positive total demand and
fixed baseline hours, the swept total hours are strictly decreasing in
the ratio: for ratios `0 < r1 < r2`, `total_hours(r1) > total_hours(r2)`
(for zero total demand the totals coincide). -/
theorem sensitivity_monotone (demand : List ℚ) (r1 r2 b : ℚ)
    (h1 : 0 < r1) (h12 : r1 < r2) (hs : 0 < demand.sum) :
    scenarioTotalHours demand r1 b > scenarioTotalHours demand r2 b := by
  rw [scenarioTotalHours_eq, scenarioTotalHours_eq]
  have h2 : 0 < r2 := lt_trans h1 h12
  have : demand.sum / r2 < demand.sum / r1 :=
    div_lt_div_of_pos_left hs h1 h12
  linarith

/-- Witness for C7 amended: demand `[10]`, ratios 1 < 2, baseline 0:
total hours 10 > 5. -/
theorem sensitivity_monotone_witness :
    scenarioTotalHours [10] 1 0 > scenarioTotalHours [10] 2 0 :=
  sensitivity_monotone [10] 1 2 0 (by norm_num) (by norm_num) (by norm_num)

/-! ## Claim theorems: productivity calibration (C5) -/

/-- C5: with implied real productivity `r` (baseline-quarter value `r0`)
and benchmark value `v` (baseline value `v0`), both series are rebased
to 100 at the shared baseline period, and a period is flagged exactly
when the relative deviation of the implied index from the benchmark
index exceeds the 10 % threshold. -/
theorem calibration_flag_iff (r r0 v v0 : ℚ)
    (hr0 : r0 ≠ 0) (hv : 0 < v) (hv0 : 0 < v0) :
    indexTo100 r0 r0 = 100 ∧ indexTo100 v0 v0 = 100 ∧
    (flaggedPeriod (indexTo100 r r0) (indexTo100 v v0) = true ↔
      |indexTo100 r r0 - indexTo100 v v0| / indexTo100 v v0 > 1 / 10) := by
  have hb : (0 : ℚ) < indexTo100 v v0 := by
    unfold indexTo100
    positivity
  refine ⟨?_, ?_, ?_⟩
  · unfold indexTo100
    rw [div_self hr0]
    norm_num
  · unfold indexTo100
    rw [div_self (ne_of_gt hv0)]
    norm_num
  · set p := indexTo100 r r0
    set b := indexTo100 v v0
    have hbne : b ≠ 0 := ne_of_gt hb
    have hdiff : p / b - 1 = (p - b) / b := by
      field_simp
    have habs : |deviationPct p b| = |p - b| / b * 100 := by
      unfold deviationPct
      rw [hdiff, abs_mul, abs_div, abs_of_pos hb]
      norm_num
    unfold flaggedPeriod
    rw [decide_eq_true_iff, habs]
    unfold deviationThreshold
    constructor <;> intro h <;> linarith

/-- Witness for C5 at implied 6/5 rebased over baseline 1 against
benchmark 1 over baseline 1: indices 120 vs 100, relative deviation 1/5
exceeds 1/10, and the period is flagged. -/
theorem calibration_flag_iff_witness :
    indexTo100 1 1 = 100 ∧ indexTo100 1 1 = 100 ∧
    (flaggedPeriod (indexTo100 (6 / 5) 1) (indexTo100 1 1) = true ↔
      |indexTo100 (6 / 5) 1 - indexTo100 1 1| / indexTo100 1 1 > 1 / 10) :=
  calibration_flag_iff (6 / 5) 1 1 1 (by norm_num) (by norm_num) (by norm_num)

/-! ## Claim theorems: MAPE (C8) -/

/-- C8 counterexample: on the two test rows `(actual, predicted) =
(0, 1)` and `(100, 100)` the pipeline's MAPE is 2⁵¹ — the zero-actual
row is included with its denominator clamped to 2⁻⁵² — while the spec's
exclusion-based MAPE is 0; the zero-actual count the spec wants reported
is 1, but nothing in the source computes it. -/
theorem mape_counterexample :
    mapeSklearn [(0, 1), (100, 100)] = 2 ^ 51 ∧
    mapeExcludingZeros [(0, 1), (100, 100)] = 0 ∧
    zeroActualCount [(0, 1), (100, 100)] = 1 ∧
    mapeSklearn [(0, 1), (100, 100)] ≠ mapeExcludingZeros [(0, 1), (100, 100)] := by
  refine ⟨?_, ?_, ?_, ?_⟩ <;>
    norm_num [mapeSklearn, mapeExcludingZeros, zeroActualCount, mapeTerm,
      epsFloat64, abs_of_nonneg, List.filter]

/-- C8 amended: MAPE is computed over the test rows, but a zero-actual
row is not excluded: its term enters the mean with the denominator
clamped to `eps = 2⁻⁵²` (so the code never divides by zero, the clamp —
not an exclusion — prevents it), and every row's denominator is
positive. -/
theorem mape_includes_zero_rows (e : ℚ) (rest : List (ℚ × ℚ)) :
    mapeSklearn ((0, e) :: rest) * ((rest.length : ℚ) + 1) =
      |e| * 2 ^ 52 + (rest.map mapeTerm).sum ∧
    (∀ p : ℚ × ℚ, 0 < max |p.1| epsFloat64) := by
  constructor
  · have hlen : ((rest.length : ℚ) + 1) ≠ 0 := by positivity
    have hterm : mapeTerm (0, e) = |e| * 2 ^ 52 := by
      unfold mapeTerm epsFloat64
      rw [div_eq_mul_inv]
      norm_num
    unfold mapeSklearn
    simp only [List.map_cons, List.sum_cons, List.length_cons]
    push_cast
    rw [div_mul_cancel₀ _ hlen, hterm]
  · intro p
    have : (0 : ℚ) < epsFloat64 := by norm_num [epsFloat64]
    exact lt_max_of_lt_right this

end RetailLabour
